import Mathlib

/-!
Shallow embedding of the module registry and request-dispatch subsystem of
the cthun agent (`src/lib/src/agent.cc`, namespace `CthunAgent`), together
with proofs of the specification claims about it.

The embedding follows the source file: the `Agent::cncRequestCallback`
dispatch callback, `Agent::loadInternalModules`,
`Agent::loadExternalModulesFrom`, `Agent::getCncRequestSchema`, the `Agent`
constructor and `Agent::start`.  Effects (calls to `connector_.send`,
`performRequest` invocations, registry lookups, error logs) are recorded in
an explicit `Trace`; C++ exceptions are values of an explicit exception
type threaded through `Except`, so that which handler catches which
exception is visible in the model.
-/

namespace CthunAgent

/-- JSON values as held by a `CthunClient::DataContainer`. -/
inductive JsonValue where
  | null
  | str (s : String)
  | num (n : Int)
  | boolean (b : Bool)
  | obj (fields : List (String × JsonValue))
  | arr (elems : List JsonValue)

/-- Field lookup in a JSON object field list (first match). -/
def lookupField : List (String × JsonValue) → String → Option JsonValue
  | [], _ => none
  | (k', v) :: rest, k => if k' = k then some v else lookupField rest k

/-- Key lookup on a JSON value: only objects have fields. -/
def jsonLookup : JsonValue → String → Option JsonValue
  | .obj fields, k => lookupField fields k
  | _, _ => none

/-- The behaviour of `DataContainer::get<std::string>(key)`: the value of
`key` when it is a string, and the default-constructed `""` otherwise
(cthun-client's documented default-value semantics for absent or
differently-typed keys). -/
def getString (d : JsonValue) (k : String) : String :=
  match jsonLookup d k with
  | some (.str s) => s
  | _ => ""

/-- Content type of a message chunk (`CthunClient::ContentType`). -/
inductive ContentType where
  | Json
  | Binary
deriving DecidableEq

/-- The relevant fields of `CthunClient::ParsedChunks` as used by
`Agent::cncRequestCallback`: the envelope's `id` and `sender` entries, the
data section presence flag and content type, the data section itself, and
the debug chunks. -/
structure ParsedChunks where
  id : String
  sender : String
  has_data : Bool
  data_type : ContentType
  data : JsonValue
  debug : List String

/-- Request-level errors (`request_error` and its subclasses from
`cthun-agent/errors.hpp`): validation failures thrown by the callback
itself and the per-request handler failures of the error taxonomy. -/
inductive RequestError where
  | validation (msg : String)
  | actionNotFound (msg : String)
  | actionTimeout (msg : String)
  | actionExecution (msg : String)

/-- The message carried by a request error (`e.what()`). -/
def RequestError.what : RequestError → String
  | .validation msg => msg
  | .actionNotFound msg => msg
  | .actionTimeout msg => msg
  | .actionExecution msg => msg

/-- Modelled from the spec: `Module` and its `performRequest` member
(`src/lib/src/module.cc` and `external_module.cc` are not available).  A
module has a unique name, a list of action names, and a `performRequest`
that either produces a result payload or fails with one of the request
errors of the spec's taxonomy (`ActionNotFound` / `ActionTimeout` /
`ActionExecutionError` / validation errors), all of which are
`request_error`s. -/
structure Module where
  module_name : String
  actions : List String
  performRequest : String → ParsedChunks → Except RequestError JsonValue

/-- Insertion with replacement, as done by `modules_[name] = m` on the
`std::map` registry: an existing binding of the key is overwritten. -/
def mapInsert : List (String × Module) → String → Module → List (String × Module)
  | [], k, v => [(k, v)]
  | (k', v') :: rest, k, v =>
      if k' = k then (k, v) :: rest else (k', v') :: mapInsert rest k v

/-- Lookup in the registry, as done by `modules_.find(name)` /
`modules_.at(name)`. -/
def mapFind : List (String × Module) → String → Option Module
  | [], _ => none
  | (k', v') :: rest, k => if k' = k then some v' else mapFind rest k

/-- Whether a send is the success-path send (line 217, carrying the handler
result and the debug chunks) or the error-path send (line 242, carrying the
error object). -/
inductive RespKind where
  | success
  | error
deriving DecidableEq

/-- One call to `connector_.send`: target endpoints, timeout, data payload,
debug entries, tagged with which send site issued it. -/
structure SendCall where
  targets : List String
  timeout : Nat
  data : JsonValue
  debug : List JsonValue
  kind : RespKind

/-- The environment's behaviour of `connector_.send`: `none` means the send
succeeds, `some msg` means it throws `CthunClient::connection_error` with
message `msg` (the only failure the transport contract allows per send). -/
def SendBehavior : Type := SendCall → Option String

/-- C++ exceptions that can travel through `cncRequestCallback`'s body:
`request_error`s (caught by the outer catch clause at line 228) and
`CthunClient::connection_error`s (caught by the inner catch clauses around
each send). -/
inductive CppError where
  | requestError (e : RequestError)
  | connectionError (msg : String)

/-- `connector_.send`: succeeds or throws `connection_error` according to
the environment. -/
def connectorSend (sendBeh : SendBehavior) (call : SendCall) : Except CppError Unit :=
  match sendBeh call with
  | none => .ok ()
  | some msg => .error (.connectionError msg)

/-- Record of the observable effects of one callback invocation: registry
lookups performed, `performRequest` invocations as (module, action) pairs,
send calls issued to the connector, and error-level log lines. -/
structure Trace where
  lookups : List String := []
  performed : List (String × String) := []
  sends : List SendCall := []
  errorLogs : List String := []

/-- The default message timeout (`DEFAULT_MSG_TIMEOUT_SEC`). -/
def DEFAULT_MSG_TIMEOUT_SEC : Nat := 10

/-- The log line of line 229: "Failed to process message ...". -/
def processFailLog (pc : ParsedChunks) (e : RequestError) : String :=
  "Failed to process message " ++ pc.id ++ " from " ++ pc.sender ++ ": " ++ e.what

/-- The log line of line 247: "Failed send an error response ...". -/
def errorSendFailLog (pc : ParsedChunks) (emsg : String) : String :=
  "Failed send an error response to the " ++ pc.id ++ " request from "
    ++ pc.sender ++ ": " ++ emsg

/-- The log line of line 225: "Failed to reply ...". -/
def replyFailLog (pc : ParsedChunks) (emsg : String) : String :=
  "Failed to reply to the " ++ pc.id ++ " request from " ++ pc.sender ++ ": " ++ emsg

/-- The error-path send call (lines 242-245): `error_data_json` holding the
single `error` string, addressed to the requester, with no debug entries. -/
def errCall (pc : ParsedChunks) (e : RequestError) : SendCall :=
  { targets := [pc.sender], timeout := DEFAULT_MSG_TIMEOUT_SEC,
    data := .obj [("error", .str e.what)], debug := [], kind := .error }

/-- The success-path send call (lines 217-221): the handler's result
payload plus one `debug_data` entry per inbound debug chunk, in order. -/
def succCall (pc : ParsedChunks) (data_json : JsonValue) : SendCall :=
  { targets := [pc.sender], timeout := DEFAULT_MSG_TIMEOUT_SEC,
    data := data_json,
    debug := pc.debug.map (fun d => JsonValue.obj [("debug_data", .str d)]),
    kind := .success }

/-- Lines 228-250 of `agent.cc`: the `catch (request_error& e)` clause.
Logs the failure, builds `error_data_json` with the single `error` string,
and sends it to the requester with no debug entries; a `connection_error`
from this send is caught and logged, anything else would propagate. -/
def requestErrorHandler (sendBeh : SendBehavior) (pc : ParsedChunks)
    (e : RequestError) (t : Trace) : Except (CppError × Trace) Trace :=
  let t := { t with errorLogs := t.errorLogs ++ [processFailLog pc e] }
  let call := errCall pc e
  let t := { t with sends := t.sends ++ [call] }
  match connectorSend sendBeh call with
  | .ok _ => .ok t
  | .error (.connectionError emsg) =>
      .ok { t with errorLogs := t.errorLogs ++ [errorSendFailLog pc emsg] }
  | .error other => .error (other, t)

/-- Lines 185-227 of `agent.cc`: the body of the `try` block of
`Agent::cncRequestCallback`.  Inspects the envelope, inspects the data,
looks the module up, delegates to its `performRequest`, wraps the inbound
debug chunks, and sends the success response; a `connection_error` from the
send is caught and logged (line 222), anything else escapes the body
carrying the trace accumulated so far. -/
def dispatchBody (modules : List (String × Module)) (sendBeh : SendBehavior)
    (pc : ParsedChunks) : Except (CppError × Trace) Trace :=
  let t : Trace := {}
  if pc.has_data = false then
    .error (.requestError (.validation "no data"), t)
  else if pc.data_type ≠ ContentType.Json then
    .error (.requestError (.validation "data is not in JSON format"), t)
  else
    let module_name := getString pc.data "module"
    let action_name := getString pc.data "action"
    let t := { t with lookups := t.lookups ++ [module_name] }
    match mapFind modules module_name with
    | none =>
        .error (.requestError (.validation ("unknown module: " ++ module_name)), t)
    | some module_ptr =>
        let t := { t with performed := t.performed ++ [(module_name, action_name)] }
        match module_ptr.performRequest action_name pc with
        | .error e => .error (.requestError e, t)
        | .ok data_json =>
            let call := succCall pc data_json
            let t := { t with sends := t.sends ++ [call] }
            match connectorSend sendBeh call with
            | .ok _ => .ok t
            | .error (.connectionError emsg) =>
                .ok { t with errorLogs := t.errorLogs ++ [replyFailLog pc emsg] }
            | .error other => .error (other, t)

/-- `Agent::cncRequestCallback` (lines 178-251): the `try` body followed by
the `catch (request_error& e)` clause.  A `request_error` escaping the body
is turned into an error response; any other exception would propagate
upward out of the callback (the `.error` result). -/
def cncRequestCallback (modules : List (String × Module)) (sendBeh : SendBehavior)
    (pc : ParsedChunks) : Except (CppError × Trace) Trace :=
  match dispatchBody modules sendBeh pc with
  | .ok t => .ok t
  | .error (.requestError e, t) => requestErrorHandler sendBeh pc e t
  | .error other => .error other

/-- Type constraints of `CthunClient::TypeConstraint` as used by
`Agent::getCncRequestSchema`. -/
inductive TypeConstraint where
  | String
  | Object
deriving DecidableEq

/-- Whether a JSON value satisfies a type constraint. -/
def typeMatches : TypeConstraint → JsonValue → Bool
  | .String, .str _ => true
  | .Object, .obj _ => true
  | _, _ => false

/-- `Agent::getCncRequestSchema` (lines 167-176): the schema's constraints
as (key, type constraint, required) triples — `module` and `action` are
required strings, `params` an optional object. -/
def getCncRequestSchema : List (String × TypeConstraint × Bool) :=
  [("module", .String, true), ("action", .String, true), ("params", .Object, false)]

/-- Modelled from the spec: the wire-level schema enforcement done by the
transport collaborator on the registered schema (`registerMessageCallback`,
cthun-client code not in this repository).  A data section validates when
every required key is present with the declared type and every present
optional key has the declared type. -/
def validatesSchema (schema : List (String × TypeConstraint × Bool))
    (data : JsonValue) : Bool :=
  schema.all (fun c =>
    match jsonLookup data c.1 with
    | some v => typeMatches c.2.1 v
    | none => !c.2.2)

/-- One entry produced by `fs::directory_iterator`: its path string and
whether `fs::is_directory(f->status())` holds for it. -/
structure DirEntry where
  path : String
  is_directory : Bool

/-- The environment's behaviour of the `ExternalModule` constructor on a
file path: `.ok m` when construction succeeds with module `m`, `.error msg`
when it throws (`module_error` or any other exception, all caught by the
catch clauses at lines 130-137 of `agent.cc`). -/
def Construct : Type := String → Except String Module

/-- The loop of `Agent::loadExternalModulesFrom` (lines 123-139): iterate
the directory entries in order, skip subdirectories, construct an
`ExternalModule` per regular file, insert it under its declared name on
success, log and continue on failure.  Returns the registry and the error
log lines. -/
def loadEntries (construct : Construct) :
    List DirEntry → List (String × Module) × List String →
    List (String × Module) × List String
  | [], st => st
  | e :: rest, (modules, logs) =>
      if e.is_directory then
        loadEntries construct rest (modules, logs)
      else
        match construct e.path with
        | .ok m => loadEntries construct rest (mapInsert modules m.module_name m, logs)
        | .error msg =>
            loadEntries construct rest
              (modules, logs ++ ["Failed to load " ++ e.path ++ "; " ++ msg])

/-- The warning of lines 141-142 (two adjacent string literals in the
source). -/
def missingModulesDirLog : String :=
  "Failed to locate the modules directory; external modules "
    ++ "will not be loaded"

/-- `Agent::loadExternalModulesFrom` (lines 117-144): when the given path
is a directory, scan its entries; otherwise log a warning and load
nothing. -/
def loadExternalModulesFrom (construct : Construct) (is_directory : Bool)
    (entries : List DirEntry) (modules : List (String × Module)) :
    List (String × Module) × List String :=
  if is_directory then
    loadEntries construct entries (modules, [])
  else
    (modules, [missingModulesDirLog])

/-- The regular-file entries whose `ExternalModule` construction succeeds,
in directory order: exactly the modules the scan inserts. -/
def successfulLoads (construct : Construct) (entries : List DirEntry) : List Module :=
  entries.filterMap (fun e =>
    if e.is_directory then none
    else
      match construct e.path with
      | .ok m => some m
      | .error _ => none)

/-- The error log lines the scan emits, one per regular file whose
construction fails. -/
def failureLoadLogs (construct : Construct) (entries : List DirEntry) : List String :=
  entries.filterMap (fun e =>
    if e.is_directory then none
    else
      match construct e.path with
      | .ok _ => none
      | .error msg => some ("Failed to load " ++ e.path ++ "; " ++ msg))

/-- Modelled from the spec: the internal `echo` module
(`src/lib/src/modules/echo.cc` is not available) — "echo returns its
input": its single `echo` action answers with the request's `params`. -/
def echoModule : Module :=
  { module_name := "echo", actions := ["echo"],
    performRequest := fun _ pc =>
      match jsonLookup pc.data "params" with
      | some v => .ok v
      | none => .ok .null }

/-- Modelled from the spec: the internal `inventory` module
(`src/lib/src/modules/inventory.cc` is not available) — a fixed in-memory
computation returning facts about the host. -/
def inventoryModule : Module :=
  { module_name := "inventory", actions := ["inventory"],
    performRequest := fun _ _ => .ok (.obj [("facts", .obj [])]) }

/-- Modelled from the spec: the internal `ping` module
(`src/lib/src/modules/ping.cc` is not available) — "a liveness check
returns a constant status". -/
def pingModule : Module :=
  { module_name := "ping", actions := ["ping"],
    performRequest := fun _ _ => .ok (.obj [("response", .str "pong")]) }

/-- Modelled from the spec: the internal `status` module
(`src/lib/src/modules/status.cc` is not available) — a fixed diagnostics
computation. -/
def statusModule : Module :=
  { module_name := "status", actions := ["query"],
    performRequest := fun _ _ => .ok (.obj [("status", .str "success")]) }

/-- `Agent::loadInternalModules` (lines 110-115): unconditionally insert
the four internal modules under the names `echo`, `inventory`, `ping` and
`status`. -/
def loadInternalModules : List (String × Module) :=
  mapInsert (mapInsert (mapInsert (mapInsert [] "echo" echoModule)
    "inventory" inventoryModule) "ping" pingModule) "status" statusModule

/-- The state an `Agent` holds after construction: its module registry and
the log lines emitted while loading. -/
structure AgentState where
  modules : List (String × Module)
  logs : List String

/-- The `Agent` constructor (lines 56-72): initialise the connector — whose
constructor may throw `connection_config_error`, modelled by
`connectorCtorError` — then load the internal modules and scan the modules
directory; the function-try-block turns a `connection_config_error` into a
`fatal_error` whose message prefixes the original one, terminating the
process before any request is served.  `.error` is the thrown
`fatal_error`'s message. -/
def mkAgent (connectorCtorError : Option String) (construct : Construct)
    (is_directory : Bool) (entries : List DirEntry) : Except String AgentState :=
  match connectorCtorError with
  | some msg => .error ("failed to configure the agent: " ++ msg)
  | none =>
      let internal := loadInternalModules
      let res := loadExternalModulesFrom construct is_directory entries internal
      .ok { modules := res.1, logs := res.2 }

/-- The trace produced by the `catch (request_error&)` clause on top of the
trace `t` accumulated before the throw: the failure is logged, the error
response is the one further send, and a failing error-send adds one more
log line. -/
def errorTrace (sendBeh : SendBehavior) (pc : ParsedChunks) (e : RequestError)
    (t : Trace) : Trace :=
  { t with
    sends := t.sends ++ [errCall pc e],
    errorLogs := t.errorLogs ++ [processFailLog pc e] ++
      (match sendBeh (errCall pc e) with
       | none => []
       | some emsg => [errorSendFailLog pc emsg]) }

/-- The trace of a fully successful dispatch of module `mn`, action `an`,
with handler result `d`: one lookup, one `performRequest` invocation, one
success send, and a log line exactly when that send fails. -/
def successTrace (sendBeh : SendBehavior) (pc : ParsedChunks) (mn an : String)
    (d : JsonValue) : Trace :=
  { lookups := [mn], performed := [(mn, an)], sends := [succCall pc d],
    errorLogs :=
      match sendBeh (succCall pc d) with
      | none => []
      | some emsg => [replyFailLog pc emsg] }

/-- A send behaviour on which every send succeeds. -/
def sendOk : SendBehavior := fun _ => none

/-- A concrete inbound request with no data section. -/
def pcNoData : ParsedChunks :=
  { id := "id-nodata", sender := "sender-nodata", has_data := false,
    data_type := .Json, data := .obj [], debug := [] }

/-- The concrete request of the spec's scenario: module `nope`, action
`x`. -/
def pcNope : ParsedChunks :=
  { id := "id-nope", sender := "sender-nope", has_data := true,
    data_type := .Json,
    data := .obj [("module", .str "nope"), ("action", .str "x")],
    debug := [] }

/-- A concrete request naming the registered module `echo` with an
empty-string action: its data section satisfies the request schema. -/
def pcEmptyAction : ParsedChunks :=
  { id := "id-empty", sender := "sender-empty", has_data := true,
    data_type := .Json,
    data := .obj [("module", .str "echo"), ("action", .str "")],
    debug := [] }

/-- A concrete external module declaring the name `dup` (first of two). -/
def dupA : Module :=
  { module_name := "dup", actions := ["go"],
    performRequest := fun _ _ => .ok (.str "A") }

/-- A concrete external module declaring the name `dup` (second of two). -/
def dupB : Module :=
  { module_name := "dup", actions := ["go"],
    performRequest := fun _ _ => .ok (.str "B") }

/-- A concrete constructor behaviour: the file `a` builds `dupA`, the file
`b` builds `dupB`, anything else fails. -/
def constructDup : Construct := fun p =>
  if p = "a" then .ok dupA
  else if p = "b" then .ok dupB
  else .error "metadata is invalid"

/-- The possible outcomes of `connector_.connect()` under the transport
contract: success, a `connection_config_error`, or a
`connection_fatal_error`. -/
inductive ConnectOutcome where
  | ok
  | configError (msg : String)
  | fatalError (msg : String)

/-- The connect step of `Agent::start` (lines 81-91): a
`connection_config_error` and a `connection_fatal_error` are each caught
and rethrown as a `fatal_error` (`.error` carries its message; note the
source builds the first message from two adjacent string literals with no
space in between). -/
def startConnect (outcome : ConnectOutcome) : Except String Unit :=
  match outcome with
  | .ok => .ok ()
  | .configError _ =>
      .error ("failed to configure the underlying communications" ++ "layer")
  | .fatalError _ => .error "failed to connect"

/-! ### Characterisation of the dispatch callback -/

theorem errCall_targets (pc : ParsedChunks) (e : RequestError) :
    (errCall pc e).targets = [pc.sender] := rfl

theorem errCall_kind (pc : ParsedChunks) (e : RequestError) :
    (errCall pc e).kind = RespKind.error := rfl

theorem errCall_debug (pc : ParsedChunks) (e : RequestError) :
    (errCall pc e).debug = [] := rfl

theorem errCall_data (pc : ParsedChunks) (e : RequestError) :
    (errCall pc e).data = .obj [("error", .str e.what)] := rfl

theorem succCall_targets (pc : ParsedChunks) (d : JsonValue) :
    (succCall pc d).targets = [pc.sender] := rfl

theorem succCall_kind (pc : ParsedChunks) (d : JsonValue) :
    (succCall pc d).kind = RespKind.success := rfl

theorem succCall_debug (pc : ParsedChunks) (d : JsonValue) :
    (succCall pc d).debug
      = pc.debug.map (fun s => JsonValue.obj [("debug_data", .str s)]) := rfl

theorem errorTrace_sends (sendBeh : SendBehavior) (pc : ParsedChunks)
    (e : RequestError) (t : Trace) :
    (errorTrace sendBeh pc e t).sends = t.sends ++ [errCall pc e] := rfl

theorem errorTrace_performed (sendBeh : SendBehavior) (pc : ParsedChunks)
    (e : RequestError) (t : Trace) :
    (errorTrace sendBeh pc e t).performed = t.performed := rfl

theorem errorTrace_lookups (sendBeh : SendBehavior) (pc : ParsedChunks)
    (e : RequestError) (t : Trace) :
    (errorTrace sendBeh pc e t).lookups = t.lookups := rfl

theorem errorTrace_errorLogs (sendBeh : SendBehavior) (pc : ParsedChunks)
    (e : RequestError) (t : Trace) :
    (errorTrace sendBeh pc e t).errorLogs
      = t.errorLogs ++ [processFailLog pc e] ++
        (match sendBeh (errCall pc e) with
         | none => []
         | some emsg => [errorSendFailLog pc emsg]) := rfl

theorem successTrace_sends (sendBeh : SendBehavior) (pc : ParsedChunks)
    (mn an : String) (d : JsonValue) :
    (successTrace sendBeh pc mn an d).sends = [succCall pc d] := rfl

theorem successTrace_performed (sendBeh : SendBehavior) (pc : ParsedChunks)
    (mn an : String) (d : JsonValue) :
    (successTrace sendBeh pc mn an d).performed = [(mn, an)] := rfl

theorem successTrace_errorLogs (sendBeh : SendBehavior) (pc : ParsedChunks)
    (mn an : String) (d : JsonValue) :
    (successTrace sendBeh pc mn an d).errorLogs
      = (match sendBeh (succCall pc d) with
         | none => []
         | some emsg => [replyFailLog pc emsg]) := rfl

/-- The `catch (request_error&)` clause always completes normally and
produces the error-response trace. -/
theorem requestErrorHandler_spec (sendBeh : SendBehavior) (pc : ParsedChunks)
    (e : RequestError) (t : Trace) :
    requestErrorHandler sendBeh pc e t = .ok (errorTrace sendBeh pc e t) := by
  unfold requestErrorHandler connectorSend errorTrace
  rcases h : sendBeh (errCall pc e) with _ | emsg <;> simp [h]

/-- A request with no data section throws `request_validation_error "no
data"` before any lookup, and the callback answers with the error
response. -/
theorem cnc_no_data (modules : List (String × Module)) (sendBeh : SendBehavior)
    (pc : ParsedChunks) (h : pc.has_data = false) :
    cncRequestCallback modules sendBeh pc =
      .ok (errorTrace sendBeh pc (.validation "no data") {}) := by
  unfold cncRequestCallback dispatchBody
  rw [h]
  simp [requestErrorHandler_spec]

/-- A request whose data is not JSON throws `request_validation_error`
before any lookup, and the callback answers with the error response. -/
theorem cnc_not_json (modules : List (String × Module)) (sendBeh : SendBehavior)
    (pc : ParsedChunks) (h1 : pc.has_data = true)
    (h2 : pc.data_type ≠ ContentType.Json) :
    cncRequestCallback modules sendBeh pc =
      .ok (errorTrace sendBeh pc (.validation "data is not in JSON format") {}) := by
  unfold cncRequestCallback dispatchBody
  rw [h1]
  simp [h2, requestErrorHandler_spec]

/-- A request naming an unregistered module throws the `unknown module`
validation error after the one failed lookup, and the callback answers
with the error response. -/
theorem cnc_unknown_module (modules : List (String × Module))
    (sendBeh : SendBehavior) (pc : ParsedChunks) (h1 : pc.has_data = true)
    (h2 : pc.data_type = ContentType.Json)
    (h3 : mapFind modules (getString pc.data "module") = none) :
    cncRequestCallback modules sendBeh pc =
      .ok (errorTrace sendBeh pc
        (.validation ("unknown module: " ++ getString pc.data "module"))
        { lookups := [getString pc.data "module"] }) := by
  unfold cncRequestCallback dispatchBody
  rw [h1]
  simp [h2, h3, requestErrorHandler_spec]

/-- A handler failure is rethrown as a `request_error` and answered with
the error response; the trace records the lookup and the invocation. -/
theorem cnc_perform_error (modules : List (String × Module))
    (sendBeh : SendBehavior) (pc : ParsedChunks) (m : Module) (e : RequestError)
    (h1 : pc.has_data = true) (h2 : pc.data_type = ContentType.Json)
    (h3 : mapFind modules (getString pc.data "module") = some m)
    (h4 : m.performRequest (getString pc.data "action") pc = .error e) :
    cncRequestCallback modules sendBeh pc =
      .ok (errorTrace sendBeh pc e
        { lookups := [getString pc.data "module"],
          performed := [(getString pc.data "module", getString pc.data "action")] }) := by
  unfold cncRequestCallback dispatchBody
  rw [h1]
  simp [h2, h3, h4, requestErrorHandler_spec]

/-- A successful handler invocation leads to the success response. -/
theorem cnc_perform_ok (modules : List (String × Module))
    (sendBeh : SendBehavior) (pc : ParsedChunks) (m : Module) (d : JsonValue)
    (h1 : pc.has_data = true) (h2 : pc.data_type = ContentType.Json)
    (h3 : mapFind modules (getString pc.data "module") = some m)
    (h4 : m.performRequest (getString pc.data "action") pc = .ok d) :
    cncRequestCallback modules sendBeh pc =
      .ok (successTrace sendBeh pc (getString pc.data "module")
        (getString pc.data "action") d) := by
  unfold cncRequestCallback dispatchBody
  rw [h1]
  rcases h : sendBeh (succCall pc d) with _ | emsg <;>
    simp [h2, h3, h4, connectorSend, h, successTrace]

/-- Every invocation of the callback ends in one of two ways: an error
response built by the catch clause on top of a pre-throw trace with no
sends and no logs, or a success response. -/
theorem cnc_form (modules : List (String × Module)) (sendBeh : SendBehavior)
    (pc : ParsedChunks) :
    (∃ e t0, cncRequestCallback modules sendBeh pc =
        .ok (errorTrace sendBeh pc e t0) ∧ t0.sends = [] ∧ t0.errorLogs = []) ∨
    (∃ d, cncRequestCallback modules sendBeh pc =
        .ok (successTrace sendBeh pc (getString pc.data "module")
          (getString pc.data "action") d)) := by
  by_cases h1 : pc.has_data = true
  · by_cases h2 : pc.data_type = ContentType.Json
    · rcases h3 : mapFind modules (getString pc.data "module") with _ | m
      · exact Or.inl ⟨_, _, cnc_unknown_module modules sendBeh pc h1 h2 h3, rfl, rfl⟩
      · rcases h4 : m.performRequest (getString pc.data "action") pc with e | d
        · exact Or.inl ⟨_, _, cnc_perform_error modules sendBeh pc m e h1 h2 h3 h4, rfl, rfl⟩
        · exact Or.inr ⟨d, cnc_perform_ok modules sendBeh pc m d h1 h2 h3 h4⟩
    · exact Or.inl ⟨_, _, cnc_not_json modules sendBeh pc h1 h2, rfl, rfl⟩
  · have h : pc.has_data = false := by simpa using h1
    exact Or.inl ⟨_, _, cnc_no_data modules sendBeh pc h, rfl, rfl⟩

/-! ### Registry and loader lemmas -/

/-- Lookup after insert-with-replacement: the inserted key maps to the new
value, every other key is untouched. -/
theorem mapFind_mapInsert (ms : List (String × Module)) (k : String) (v : Module)
    (n : String) :
    mapFind (mapInsert ms k v) n = if k = n then some v else mapFind ms n := by
  induction ms with
  | nil => simp [mapInsert, mapFind]
  | cons hd tl ih =>
      obtain ⟨k', v'⟩ := hd
      by_cases hk : k' = k
      · subst hk
        simp only [mapInsert, if_pos rfl, mapFind]
        by_cases hn : k' = n <;> simp [hn]
      · simp only [mapInsert, if_neg hk, mapFind, ih]
        by_cases hn : k' = n
        · subst hn
          have : ¬ k = k' := fun h => hk h.symm
          simp [this]
        · simp [hn]

/-- Insertion never removes a key from the registry. -/
theorem mapFind_isSome_mapInsert (ms : List (String × Module)) (k : String)
    (v : Module) (n : String) (h : (mapFind ms n).isSome = true) :
    (mapFind (mapInsert ms k v) n).isSome = true := by
  rw [mapFind_mapInsert]
  by_cases hk : k = n <;> simp [hk, h]

/-- The scan loop processes its entries left to right. -/
theorem loadEntries_append (construct : Construct) (xs ys : List DirEntry)
    (st : List (String × Module) × List String) :
    loadEntries construct (xs ++ ys) st
      = loadEntries construct ys (loadEntries construct xs st) := by
  induction xs generalizing st with
  | nil => simp [loadEntries]
  | cons e rest ih =>
      obtain ⟨ms, logs⟩ := st
      by_cases hd : e.is_directory
      · simp [loadEntries, hd, ih]
      · rcases hc : construct e.path with msg | m <;> simp [loadEntries, hd, hc, ih]

/-- Full characterisation of the scan loop: the final registry folds the
successfully constructed modules over the initial one, and the log gains
exactly one line per regular file whose construction failed. -/
theorem loadEntries_spec (construct : Construct) (entries : List DirEntry)
    (ms : List (String × Module)) (logs : List String) :
    loadEntries construct entries (ms, logs)
      = ((successfulLoads construct entries).foldl
          (fun acc m => mapInsert acc m.module_name m) ms,
         logs ++ failureLoadLogs construct entries) := by
  induction entries generalizing ms logs with
  | nil => simp [loadEntries, successfulLoads, failureLoadLogs]
  | cons e rest ih =>
      by_cases hd : e.is_directory
      · simp [loadEntries, hd, successfulLoads, failureLoadLogs, ih]
      · rcases hc : construct e.path with msg | m <;>
          simp [loadEntries, hd, hc, successfulLoads, failureLoadLogs, ih]

/-- The scan never removes a registry key. -/
theorem loadEntries_find_isSome (construct : Construct) (entries : List DirEntry)
    (ms : List (String × Module)) (logs : List String) (n : String)
    (h : (mapFind ms n).isSome = true) :
    (mapFind (loadEntries construct entries (ms, logs)).1 n).isSome = true := by
  induction entries generalizing ms logs with
  | nil => simpa [loadEntries] using h
  | cons e rest ih =>
      by_cases hd : e.is_directory
      · simp only [loadEntries, hd, if_pos rfl]
        exact ih ms logs h
      · rcases hc : construct e.path with msg | m
        · simp only [loadEntries, hd, if_neg, hc]
          exact ih ms _ h
        · simp only [loadEntries, hd, if_neg, hc]
          exact ih _ logs (mapFind_isSome_mapInsert ms m.module_name m n h)

/-! ### The claims -/

/-- C1: for every accepted request processed by the dispatch callback,
exactly one response send is issued, addressed to the original requester —
the success response when the handler succeeds (carrying its result),
the error response otherwise; and when the one chosen send fails, the
failure is only logged (one of the two send-failure log lines appears) and
no further delivery attempt is made (the trace still holds exactly one
send). -/
theorem claim1_exactly_one_response (modules : List (String × Module))
    (sendBeh : SendBehavior) (pc : ParsedChunks) :
    ∃ t, cncRequestCallback modules sendBeh pc = .ok t ∧
      t.sends.length = 1 ∧
      (∀ c ∈ t.sends, c.targets = [pc.sender]) ∧
      (∀ c ∈ t.sends, ∀ emsg, sendBeh c = some emsg →
        replyFailLog pc emsg ∈ t.errorLogs ∨
        errorSendFailLog pc emsg ∈ t.errorLogs) := by
  rcases cnc_form modules sendBeh pc with ⟨e, t0, hok, hs, hl⟩ | ⟨d, hok⟩
  · refine ⟨_, hok, ?_, ?_, ?_⟩
    · simp [errorTrace_sends, hs]
    · intro c hc
      simp only [errorTrace_sends, hs, List.nil_append, List.mem_singleton] at hc
      subst hc
      exact errCall_targets pc e
    · intro c hc emsg hfail
      simp only [errorTrace_sends, hs, List.nil_append, List.mem_singleton] at hc
      subst hc
      right
      simp [errorTrace_errorLogs, hl, hfail]
  · refine ⟨_, hok, ?_, ?_, ?_⟩
    · simp [successTrace_sends]
    · intro c hc
      simp only [successTrace_sends, List.mem_singleton] at hc
      subst hc
      exact succCall_targets pc d
    · intro c hc emsg hfail
      simp only [successTrace_sends, List.mem_singleton] at hc
      subst hc
      left
      simp [successTrace_errorLogs, hfail]

/-- C2: the callback never lets an exception escape — every invocation
completes normally (`Except.ok`) — and a failure the handler raises below
the dispatcher is converted into the error response sent back to the
requester. -/
theorem claim2_dispatcher_catches_all (modules : List (String × Module))
    (sendBeh : SendBehavior) (pc : ParsedChunks) :
    (∃ t, cncRequestCallback modules sendBeh pc = .ok t) ∧
    (∀ m e, pc.has_data = true → pc.data_type = ContentType.Json →
      mapFind modules (getString pc.data "module") = some m →
      m.performRequest (getString pc.data "action") pc = .error e →
      ∃ t, cncRequestCallback modules sendBeh pc = .ok t ∧
        errCall pc e ∈ t.sends) := by
  constructor
  · rcases cnc_form modules sendBeh pc with ⟨e, t0, hok, _, _⟩ | ⟨d, hok⟩
    · exact ⟨_, hok⟩
    · exact ⟨_, hok⟩
  · intro m e h1 h2 h3 h4
    refine ⟨_, cnc_perform_error modules sendBeh pc m e h1 h2 h3 h4, ?_⟩
    simp [errorTrace_sends]

/-- C3: a request with no data section, or whose data is not JSON, is
answered with a validation-error response (`no data` respectively `data is
not in JSON format`) and aborts processing: no registry lookup happens and
no `performRequest` is invoked. -/
theorem claim3_no_data_validation (modules : List (String × Module))
    (sendBeh : SendBehavior) (pc : ParsedChunks)
    (h : pc.has_data = false ∨ pc.data_type ≠ ContentType.Json) :
    ∃ msg t, (msg = "no data" ∨ msg = "data is not in JSON format") ∧
      cncRequestCallback modules sendBeh pc = .ok t ∧
      t.lookups = [] ∧ t.performed = [] ∧
      t.sends = [errCall pc (.validation msg)] := by
  by_cases h1 : pc.has_data = true
  · have h2 : pc.data_type ≠ ContentType.Json := by
      rcases h with hf | hj
      · rw [h1] at hf; exact absurd hf (by simp)
      · exact hj
    exact ⟨"data is not in JSON format", _, Or.inr rfl,
      cnc_not_json modules sendBeh pc h1 h2, rfl, rfl, rfl⟩
  · have hf : pc.has_data = false := by simpa using h1
    exact ⟨"no data", _, Or.inl rfl,
      cnc_no_data modules sendBeh pc hf, rfl, rfl, rfl⟩

/-- Closed instance of C3 at a concrete request with no data section: the
hypotheses hold and the callback answers with the `no data` validation
error having touched no module. -/
theorem claim3_no_data_validation_witness :
    (pcNoData.has_data = false ∨ pcNoData.data_type ≠ ContentType.Json) ∧
    (∃ msg t, (msg = "no data" ∨ msg = "data is not in JSON format") ∧
      cncRequestCallback loadInternalModules sendOk pcNoData = .ok t ∧
      t.lookups = [] ∧ t.performed = [] ∧
      t.sends = [errCall pcNoData (.validation msg)]) :=
  ⟨Or.inl rfl,
   claim3_no_data_validation loadInternalModules sendOk pcNoData (Or.inl rfl)⟩

/-- C4: a request naming a module absent from the registry is answered
with the error response whose error string is `unknown module: ` followed
by the requested name, and no `performRequest` is invoked. -/
theorem claim4_unknown_module_response (modules : List (String × Module))
    (sendBeh : SendBehavior) (pc : ParsedChunks)
    (h1 : pc.has_data = true) (h2 : pc.data_type = ContentType.Json)
    (h3 : mapFind modules (getString pc.data "module") = none) :
    ∃ t, cncRequestCallback modules sendBeh pc = .ok t ∧
      t.performed = [] ∧
      t.sends = [errCall pc
        (.validation ("unknown module: " ++ getString pc.data "module"))] ∧
      ∀ c ∈ t.sends, c.data =
        .obj [("error", .str ("unknown module: " ++ getString pc.data "module"))] := by
  refine ⟨_, cnc_unknown_module modules sendBeh pc h1 h2 h3, rfl, rfl, ?_⟩
  intro c hc
  simp only [errorTrace_sends, List.nil_append, List.mem_singleton] at hc
  subst hc
  rfl

/-- Closed instance of C4 at the spec's concrete scenario: the request
naming module `nope` and action `x` against the freshly constructed
internal registry is answered with the response whose data is
`(error, unknown module: nope)` and no handler runs. -/
theorem claim4_unknown_module_response_witness :
    pcNope.has_data = true ∧ pcNope.data_type = ContentType.Json ∧
    mapFind loadInternalModules (getString pcNope.data "module") = none ∧
    (∃ t, cncRequestCallback loadInternalModules sendOk pcNope = .ok t ∧
      t.performed = [] ∧
      t.sends = [errCall pcNope
        (.validation ("unknown module: " ++ getString pcNope.data "module"))] ∧
      ∀ c ∈ t.sends, c.data =
        .obj [("error", .str ("unknown module: " ++ getString pcNope.data "module"))]) :=
  ⟨rfl, rfl, rfl,
   claim4_unknown_module_response loadInternalModules sendOk pcNope rfl rfl rfl⟩

/-- C10: every success response forwards the request's debug entries, one
`(debug_data, entry)` object per inbound debug string in order, while
every error response is sent with no debug entries at all. -/
theorem claim10_debug_entries (modules : List (String × Module))
    (sendBeh : SendBehavior) (pc : ParsedChunks) :
    ∃ t, cncRequestCallback modules sendBeh pc = .ok t ∧
      ∀ c ∈ t.sends,
        (c.kind = RespKind.success →
          c.debug = pc.debug.map (fun s => JsonValue.obj [("debug_data", .str s)])) ∧
        (c.kind = RespKind.error → c.debug = []) := by
  rcases cnc_form modules sendBeh pc with ⟨e, t0, hok, hs, _⟩ | ⟨d, hok⟩
  · refine ⟨_, hok, ?_⟩
    intro c hc
    simp only [errorTrace_sends, hs, List.nil_append, List.mem_singleton] at hc
    subst hc
    exact ⟨fun h => absurd h (by simp [errCall_kind]), fun _ => errCall_debug pc e⟩
  · refine ⟨_, hok, ?_⟩
    intro c hc
    simp only [successTrace_sends, List.mem_singleton] at hc
    subst hc
    exact ⟨fun _ => succCall_debug pc d, fun h => absurd h (by simp [succCall_kind])⟩

/-- C5 counterexample: the request naming the registered module `echo`
with the empty-string action satisfies the request schema, yet the
callback does not answer it with a validation error and does touch a
module — `performRequest` is invoked on `echo` with the empty action name
and a success response is sent.  This refutes the claim that a request
whose `action` is the empty string yields a validation-error response with
no module touched (the schema constrains only presence and type, not
non-emptiness). -/
theorem claim5_counterexample :
    validatesSchema getCncRequestSchema pcEmptyAction.data = true ∧
    cncRequestCallback loadInternalModules sendOk pcEmptyAction =
      .ok { lookups := ["echo"], performed := [("echo", "")],
            sends := [succCall pcEmptyAction JsonValue.null], errorLogs := [] } :=
  ⟨rfl, rfl⟩

/-- C5 as amended: the schema requires `module` and `action` to be
declared string fields — a data section missing either, or carrying a
non-string value for either, fails schema validation — but the empty
string satisfies it; an empty (or otherwise unregistered) module name is
then answered with the `unknown module` validation error and no module is
touched, while an empty action name on a registered module reaches that
module's `performRequest`. -/
theorem claim5_schema_fields (data : JsonValue) :
    (jsonLookup data "module" = none ∨ jsonLookup data "action" = none →
       validatesSchema getCncRequestSchema data = false) ∧
    (∀ v, jsonLookup data "module" = some v →
       typeMatches TypeConstraint.String v = false →
       validatesSchema getCncRequestSchema data = false) ∧
    (∀ v, jsonLookup data "action" = some v →
       typeMatches TypeConstraint.String v = false →
       validatesSchema getCncRequestSchema data = false) ∧
    validatesSchema getCncRequestSchema
      (.obj [("module", .str ""), ("action", .str "")]) = true ∧
    (∀ modules sendBeh pc, pc.data = data → pc.has_data = true →
       pc.data_type = ContentType.Json →
       mapFind modules (getString data "module") = none →
       ∃ t, cncRequestCallback modules sendBeh pc = .ok t ∧
         t.performed = [] ∧
         t.sends = [errCall pc
           (.validation ("unknown module: " ++ getString data "module"))]) ∧
    (∀ modules sendBeh pc m, pc.data = data → pc.has_data = true →
       pc.data_type = ContentType.Json →
       mapFind modules (getString data "module") = some m →
       ∃ t, cncRequestCallback modules sendBeh pc = .ok t ∧
         t.performed = [(getString data "module", getString data "action")]) := by
  refine ⟨?_, ?_, ?_, rfl, ?_, ?_⟩
  · rintro (h | h) <;> simp [validatesSchema, getCncRequestSchema, h]
  · intro v hv ht
    simp [validatesSchema, getCncRequestSchema, hv, ht]
  · intro v hv ht
    simp [validatesSchema, getCncRequestSchema, hv, ht]
  · intro modules sendBeh pc hdata h1 h2 h3
    subst hdata
    exact ⟨_, cnc_unknown_module modules sendBeh pc h1 h2 h3, rfl, rfl⟩
  · intro modules sendBeh pc m hdata h1 h2 h3
    subst hdata
    rcases h4 : m.performRequest (getString pc.data "action") pc with e | d
    · exact ⟨_, cnc_perform_error modules sendBeh pc m e h1 h2 h3 h4, rfl⟩
    · exact ⟨_, cnc_perform_ok modules sendBeh pc m d h1 h2 h3 h4,
        successTrace_performed sendBeh pc _ _ d⟩

/-- Closed instance of the amended C5 at the counterexample's request
data: the hypotheses hold concretely, the schema accepts the empty action
string, and the handler of `echo` is reached with the empty action
name. -/
theorem claim5_schema_fields_witness :
    mapFind loadInternalModules (getString pcEmptyAction.data "module") =
      some echoModule ∧
    (∃ t, cncRequestCallback loadInternalModules sendOk pcEmptyAction = .ok t ∧
      t.performed = [(getString pcEmptyAction.data "module",
        getString pcEmptyAction.data "action")]) :=
  ⟨rfl,
   (claim5_schema_fields pcEmptyAction.data).2.2.2.2.2
     loadInternalModules sendOk pcEmptyAction echoModule rfl rfl rfl rfl⟩

/-- C6: scanning a modules directory is best-effort — the resulting
registry is exactly the initial (internal) one extended, in directory
order, with every module whose construction succeeded (subdirectories
skipped), and the log gains exactly one `Failed to load` line per regular
file whose construction failed, so a failure never aborts the scan. -/
theorem claim6_best_effort_scan (construct : Construct) (entries : List DirEntry)
    (modules : List (String × Module)) :
    loadExternalModulesFrom construct true entries modules =
      ((successfulLoads construct entries).foldl
        (fun acc m => mapInsert acc m.module_name m) modules,
       failureLoadLogs construct entries) := by
  unfold loadExternalModulesFrom
  simp [loadEntries_spec]

/-- C7: when the last-scanned regular file constructs a module, that
module is what the registry afterwards yields for its declared name —
any earlier binding of the same name, internal or external, is silently
replaced. -/
theorem claim7_later_module_wins (construct : Construct) (pre : List DirEntry)
    (f : DirEntry) (modules : List (String × Module)) (m : Module)
    (hf : f.is_directory = false) (hc : construct f.path = .ok m) :
    mapFind (loadExternalModulesFrom construct true (pre ++ [f]) modules).1
      m.module_name = some m := by
  unfold loadExternalModulesFrom
  rw [if_pos rfl, loadEntries_append]
  obtain ⟨ms, logs⟩ := loadEntries construct pre (modules, [])
  simp only [loadEntries, hf, Bool.false_eq_true, if_false, hc]
  rw [mapFind_mapInsert]
  simp

/-- Closed instance of C7: two files `a` and `b` whose modules both
declare the name `dup`; after the scan the registry yields the module of
the later file `b`. -/
theorem claim7_later_module_wins_witness :
    (DirEntry.mk "b" false).is_directory = false ∧
    constructDup "b" = .ok dupB ∧
    mapFind (loadExternalModulesFrom constructDup true
      [DirEntry.mk "a" false, DirEntry.mk "b" false] []).1 "dup" = some dupB :=
  ⟨rfl, rfl,
   claim7_later_module_wins constructDup [DirEntry.mk "a" false]
     (DirEntry.mk "b" false) [] dupB rfl rfl⟩

/-- C8: a `connection_config_error` raised by the connector while the
`Agent` is constructed, or by `connect()` inside `start`, is converted
into a `fatal_error` (the `.error` outcome, which terminates the process
before any request is served), whereas a `connection_error` raised by a
send while a response is delivered leaves the callback completing
normally with the failure merely logged. -/
theorem claim8_config_failure_fatal :
    (∀ msg construct is_directory entries,
       mkAgent (some msg) construct is_directory entries =
         .error ("failed to configure the agent: " ++ msg)) ∧
    (∀ msg, startConnect (.configError msg) =
       .error ("failed to configure the underlying communications" ++ "layer")) ∧
    (∀ msg, startConnect (.fatalError msg) = .error "failed to connect") ∧
    (∀ modules pc emsg, ∃ t,
       cncRequestCallback modules (fun _ => some emsg) pc = .ok t ∧
       (replyFailLog pc emsg ∈ t.errorLogs ∨
        errorSendFailLog pc emsg ∈ t.errorLogs)) := by
  refine ⟨fun _ _ _ _ => rfl, fun _ => rfl, fun _ => rfl, ?_⟩
  intro modules pc emsg
  rcases cnc_form modules (fun _ => some emsg) pc with ⟨e, t0, hok, _, hl⟩ | ⟨d, hok⟩
  · refine ⟨_, hok, Or.inr ?_⟩
    simp [errorTrace_errorLogs, hl]
  · refine ⟨_, hok, Or.inl ?_⟩
    simp [successTrace_errorLogs]

/-- C9: the constructed registry starts from exactly the four internal
modules `echo`, `inventory`, `ping` and `status`; the external scan only
ever adds or replaces bindings, so each of the four names stays present in
any successfully constructed agent; and when the modules directory is
missing the agent's registry is exactly the internal one, with the warning
logged. -/
theorem claim9_internal_modules :
    (mapFind loadInternalModules "echo" = some echoModule ∧
     mapFind loadInternalModules "inventory" = some inventoryModule ∧
     mapFind loadInternalModules "ping" = some pingModule ∧
     mapFind loadInternalModules "status" = some statusModule) ∧
    (∀ construct is_directory entries st,
       mkAgent none construct is_directory entries = .ok st →
       ∀ n, (mapFind loadInternalModules n).isSome = true →
         (mapFind st.modules n).isSome = true) ∧
    (∀ construct entries,
       mkAgent none construct false entries =
         .ok { modules := loadInternalModules, logs := [missingModulesDirLog] }) := by
  refine ⟨⟨rfl, rfl, rfl, rfl⟩, ?_, fun _ _ => rfl⟩
  intro construct is_directory entries st hok n hn
  have hst : st.modules = (loadExternalModulesFrom construct is_directory entries
      loadInternalModules).1 := by
    unfold mkAgent at hok
    cases hok
    rfl
  rw [hst]
  unfold loadExternalModulesFrom
  by_cases hd : is_directory = true
  · rw [if_pos hd]
    exact loadEntries_find_isSome construct entries loadInternalModules [] n hn
  · rw [if_neg hd]
    exact hn

end CthunAgent
